import Mathlib

/-!
Verification of the session-scoped conversational turn executor of the
Time Agent application (`app.py`).

The application keeps one global session identifier (`SESSION_ID`,
initially `None`), lazily creates a session on the first turn, drains the
runtime's event stream until the first final response, wraps the
asynchronous turn in a synchronous adapter that converts raised errors
into `"Error: ..."` strings, and exposes a UI handler `respond` that
appends the user and assistant messages to the chat history.

The external agent runtime is modelled as an oracle (`Runtime`): the
result of a session-creation call and, for each submitted content, either
an event sequence or a raised error.  Machine state (the global
`SESSION_ID`) is threaded explicitly as an `Option String`; the number of
session-creation calls performed by an operation is returned alongside so
that the idempotence claims can be stated.
-/

namespace TimeAgent

/-- A text part of a message or event payload (`types.Part`). -/
structure Part where
  text : String
deriving Repr, DecidableEq

/-- A content payload: a role and a list of parts (`types.Content`). -/
structure Content where
  role : String
  parts : List Part
deriving Repr, DecidableEq

/-- An item of the runtime's response stream.  It carries the final-response
flag and an optional content payload; a missing payload or an empty part
list is falsy in the source's condition `event.content and event.content.parts`. -/
structure Event where
  is_final_response : Bool
  content : Option Content
deriving Repr, DecidableEq

/-- A chat message as kept by the UI layer: `{"role": ..., "content": ...}`. -/
structure Msg where
  role : String
  content : String
deriving Repr, DecidableEq

/-- The external agent runtime, as an oracle: what `create_session` returns
(or raises), and what event stream `run_async` yields (or raises) for a
given submitted content. -/
structure Runtime where
  createSession : Except String String
  runEvents : Content → Except String (List Event)

/-- The condition of the source's event loop:
`event.is_final_response() and event.content and event.content.parts`. -/
def eventFinal (e : Event) : Bool :=
  e.is_final_response &&
    (match e.content with
     | some c => !c.parts.isEmpty
     | none => false)

/-- The text extracted from a qualifying event: `event.content.parts[0].text`. -/
def eventText (e : Event) : String :=
  match e.content with
  | some c => (c.parts.headD { text := "" }).text
  | none => ""

/-- The event-draining loop of `chat_with_agent_async`: walk the stream in
order; at the first event satisfying `eventFinal`, take its first part's
text and break.  Returns the response text together with the number of
events drawn from the stream (the `break` means later events are never
generated). -/
def drainEvents : List Event → String × Nat
  | [] => ("", 0)
  | e :: rest =>
    if eventFinal e then (eventText e, 1)
    else ((drainEvents rest).1, (drainEvents rest).2 + 1)

/-- The message formatting step:
`types.Content(role='user', parts=[types.Part(text=message)])`. -/
def userContent (message : String) : Content :=
  { role := "user", parts := [{ text := message }] }

/-- The session-ensuring step of a turn (the `if SESSION_ID is None` block
of `chat_with_agent_async`): given the runtime's session-creation result
and the current global session identifier, return the new identifier
state, the number of session-creation calls performed (0 or 1), and the
active identifier (or the raised error). -/
def ensure_session (create : Except String String) (sid : Option String) :
    Option String × Nat × Except String String :=
  match sid with
  | some id => (some id, 0, .ok id)
  | none =>
    match create with
    | .error e => (none, 1, .error e)
    | .ok newId => (some newId, 1, .ok newId)

/-- The asynchronous turn (`chat_with_agent_async`): ensure a session,
submit the formatted message, drain the event stream.  Returns the new
session-identifier state, the number of session-creation calls performed,
and either the response text or the raised error. -/
def chat_with_agent_async (rt : Runtime) (message : String) (sid : Option String) :
    Option String × Nat × Except String String :=
  let s := ensure_session rt.createSession sid
  match s.2.2 with
  | .error e => (s.1, s.2.1, .error e)
  | .ok _ =>
    match rt.runEvents (userContent message) with
    | .error e => (s.1, s.2.1, .error e)
    | .ok evs => (s.1, s.2.1, .ok (drainEvents evs).1)

/-- The synchronous boundary adapter (`chat_with_agent`): run the
asynchronous turn; on a raised error return `"Error: " + str(e)`.  The
`history` argument is received from the UI but not used. -/
def chat_with_agent (rt : Runtime) (message : String) (history : List Msg)
    (sid : Option String) : Option String × Nat × String :=
  let r := chat_with_agent_async rt message sid
  match r.2.2 with
  | .ok resp => (r.1, r.2.1, resp)
  | .error e => (r.1, r.2.1, "Error: " ++ e)

/-- `reset_session`: set the global session identifier to `None` and return
an empty list to clear the chat display. -/
def reset_session (sid : Option String) : Option String × List Msg :=
  (none, [])

/-- The UI submit handler (`respond`): obtain the agent's response, append
the user message and the assistant response to the chat history, and
return the cleared input box together with the updated history.  The
session state and creation-call count are threaded through. -/
def respond (rt : Runtime) (message : String) (chat_history : List Msg)
    (sid : Option String) : Option String × Nat × String × List Msg :=
  let r := chat_with_agent rt message chat_history sid
  (r.1, r.2.1, "",
    chat_history ++
      [{ role := "user", content := message },
       { role := "assistant", content := r.2.2 }])

/-- Iterated `ensure_session` without an intervening reset: `fresh` is the
list of identifiers the runtime would mint for each successive
creation call; returns the identifiers handed back to each turn and the
total number of session-creation calls performed. -/
def ensureRun : List String → Option String → List String × Nat
  | [], _ => ([], 0)
  | f :: fs, sid =>
    let s := ensure_session (.ok f) sid
    let rest := ensureRun fs s.1
    ((s.2.2.toOption.getD "") :: rest.1, s.2.1 + rest.2)

-- Sample runtimes and events used by witnesses and counterexamples.

/-- A non-final event with no content. -/
def evNonFinal : Event := { is_final_response := false, content := none }

/-- A final event carrying the text `"14:30"`. -/
def evFinal1430 : Event :=
  { is_final_response := true,
    content := some { role := "model", parts := [{ text := "14:30" }] } }

/-- A later final event whose text must never be reached. -/
def evExtra : Event :=
  { is_final_response := true,
    content := some { role := "model", parts := [{ text := "ignored" }] } }

/-- A runtime whose event streaming raises `"boom"` after session creation. -/
def failRt : Runtime :=
  { createSession := .ok "sess-1", runEvents := fun _ => .error "boom" }

/-- A runtime that answers every turn with a non-final then a final event. -/
def okRt : Runtime :=
  { createSession := .ok "sess-1",
    runEvents := fun _ => .ok [evNonFinal, evFinal1430] }

/-- A runtime that yields only a non-final event. -/
def noFinalRt : Runtime :=
  { createSession := .ok "sess-1", runEvents := fun _ => .ok [evNonFinal] }

/-- A runtime whose session creation raises `"no auth"`. -/
def createFailRt : Runtime :=
  { createSession := .error "no auth", runEvents := fun _ => .ok [] }

-- Helper lemmas.

/-- Skipping a prefix of non-qualifying events: the loop walks past them,
adding their number to the count of drawn events. -/
theorem drainEvents_append_skip (pre l : List Event)
    (hpre : ∀ x ∈ pre, eventFinal x = false) :
    drainEvents (pre ++ l) = ((drainEvents l).1, (drainEvents l).2 + pre.length) := by
  induction pre with
  | nil => simp [drainEvents]
  | cons a as ih =>
    have ha : eventFinal a = false := hpre a (by simp)
    have ih' := ih (fun x hx => hpre x (List.mem_cons_of_mem a hx))
    rw [List.cons_append, Prod.ext_iff]
    refine ⟨?_, ?_⟩
    · simp only [drainEvents, ha, Bool.false_eq_true, if_false, ih']
    · simp only [drainEvents, ha, Bool.false_eq_true, if_false, ih', List.length_cons]
      omega

/-- After `ensure_session` has produced a session, every later call hands
back the same identifier and performs no creation call. -/
theorem ensureRun_some (fs : List String) (id : String) :
    ensureRun fs (some id) = (List.replicate fs.length id, 0) := by
  induction fs with
  | nil => rfl
  | cons f fs ih =>
    simp [ensureRun, ensure_session, Except.toOption, ih, List.replicate]

/-- Any response returned without an error by the asynchronous turn is the
first component of `drainEvents` applied to the stream the runtime yielded
for the submitted user content. -/
theorem chat_async_ok_shape (rt : Runtime) (m : String) (sid : Option String) (r : String)
    (hok : (chat_with_agent_async rt m sid).2.2 = .ok r) :
    ∃ evs, rt.runEvents (userContent m) = .ok evs ∧ r = (drainEvents evs).1 := by
  cases sid with
  | none =>
    cases hcr : rt.createSession with
    | error e => simp [chat_with_agent_async, ensure_session, hcr] at hok
    | ok nid =>
      cases hre : rt.runEvents (userContent m) with
      | error e => simp [chat_with_agent_async, ensure_session, hcr, hre] at hok
      | ok evs =>
        refine ⟨evs, rfl, ?_⟩
        simp [chat_with_agent_async, ensure_session, hcr, hre] at hok
        exact hok.symm
  | some id =>
    cases hre : rt.runEvents (userContent m) with
    | error e => simp [chat_with_agent_async, ensure_session, hre] at hok
    | ok evs =>
      refine ⟨evs, rfl, ?_⟩
      simp [chat_with_agent_async, ensure_session, hre] at hok
      exact hok.symm

/-- The drained response is either empty or the extracted text of some
qualifying event of the stream. -/
theorem drainEvents_fst_cases (evs : List Event) :
    (drainEvents evs).1 = "" ∨
      ∃ e ∈ evs, eventFinal e = true ∧ (drainEvents evs).1 = eventText e := by
  induction evs with
  | nil => exact Or.inl rfl
  | cons a l ih =>
    by_cases ha : eventFinal a = true
    · exact Or.inr ⟨a, by simp, ha, by simp [drainEvents, ha]⟩
    · have ha' : eventFinal a = false := by simpa using ha
      rcases ih with h0 | ⟨e, he, hf, ht⟩
      · exact Or.inl (by simp [drainEvents, ha', h0])
      · exact Or.inr ⟨e, List.mem_cons_of_mem a he, hf, by simp [drainEvents, ha', ht]⟩

/-- C1: the Turn Executor consumes events in order and returns the text of
the first content part of the first event that is flagged final and has
non-empty content parts; it draws exactly the events up to and including
that one, so no subsequent event of the sequence is ever drawn. -/
theorem C1_first_final_event_text (pre rest : List Event) (e : Event)
    (c : Content) (p : Part) (ps : List Part)
    (hpre : ∀ x ∈ pre, eventFinal x = false)
    (hfin : e.is_final_response = true)
    (hc : e.content = some c)
    (hp : c.parts = p :: ps) :
    drainEvents (pre ++ e :: rest) = (p.text, pre.length + 1) := by
  have he : eventFinal e = true := by
    simp [eventFinal, hfin, hc, hp]
  have ht : eventText e = p.text := by
    simp [eventText, hc, hp]
  rw [drainEvents_append_skip pre (e :: rest) hpre, Prod.ext_iff]
  refine ⟨?_, ?_⟩
  · simp [drainEvents, he, ht]
  · simp only [drainEvents, he, if_true, List.length_cons]
    omega

/-- Witness for C1: with a non-final event before it and a further final
event after it, the final event carrying `"14:30"` is the one returned,
and only two events are drawn. -/
theorem C1_witness :
    (∀ x ∈ [evNonFinal], eventFinal x = false) ∧
    evFinal1430.is_final_response = true ∧
    evFinal1430.content = some { role := "model", parts := [{ text := "14:30" }] } ∧
    drainEvents ([evNonFinal] ++ evFinal1430 :: [evExtra]) =
      ("14:30", [evNonFinal].length + 1) :=
  ⟨by decide, rfl, rfl,
    C1_first_final_event_text [evNonFinal] [evExtra] evFinal1430
      { role := "model", parts := [{ text := "14:30" }] } { text := "14:30" } []
      (by decide) rfl rfl rfl⟩

/-- C2: starting with no active session, any number of `ensure_session`
calls without an intervening reset performs exactly one session-creation
call in total, and every call hands back the identifier minted by the
first one. -/
theorem C2_ensure_session_idempotent (f : String) (fs : List String) :
    ensureRun (f :: fs) none = (List.replicate (fs.length + 1) f, 1) := by
  simp [ensureRun, ensure_session, Except.toOption, ensureRun_some, List.replicate]

/-- C3: `reset_session` maps every prior session state to no session and an
empty history, and the next turn after a reset performs exactly one
session-creation call. -/
theorem C3_reset_clears_session (sid : Option String) (rt : Runtime) (m : String)
    (h : List Msg) :
    reset_session sid = (none, []) ∧
    (chat_with_agent rt m h (reset_session sid).1).2.1 = 1 := by
  refine ⟨rfl, ?_⟩
  cases hcr : rt.createSession with
  | error e =>
    simp [chat_with_agent, chat_with_agent_async, ensure_session, reset_session, hcr]
  | ok nid =>
    cases hre : rt.runEvents (userContent m) with
    | error e =>
      simp [chat_with_agent, chat_with_agent_async, ensure_session, reset_session, hcr, hre]
    | ok evs =>
      simp [chat_with_agent, chat_with_agent_async, ensure_session, reset_session, hcr, hre]

/-- C4: whenever the asynchronous turn raises, the synchronous boundary
adapter returns `"Error: "` followed by the exception's description; the
error is never propagated because `chat_with_agent` is a total function
into strings. -/
theorem C4_error_string (rt : Runtime) (m : String) (h : List Msg)
    (sid : Option String) (e : String)
    (herr : (chat_with_agent_async rt m sid).2.2 = .error e) :
    (chat_with_agent rt m h sid).2.2 = "Error: " ++ e := by
  simp [chat_with_agent, herr]

/-- Witness for C4: a runtime whose streaming raises `"boom"` makes the
adapter return the string `"Error: boom"`. -/
theorem C4_witness :
    (chat_with_agent_async failRt "hi" (some "s")).2.2 = Except.error "boom" ∧
    (chat_with_agent failRt "hi" [] (some "s")).2.2 = "Error: " ++ "boom" :=
  ⟨rfl, C4_error_string failRt "hi" [] (some "s") "boom" rfl⟩

/-- C5: when the runtime's stream contains no event that is final with
non-empty content parts, the Turn Executor returns the empty string with
no error on that path. -/
theorem C5_no_final_event_empty (rt : Runtime) (m : String) (sid : Option String)
    (nid : String) (evs : List Event)
    (hcr : rt.createSession = .ok nid)
    (hre : rt.runEvents (userContent m) = .ok evs)
    (hev : ∀ x ∈ evs, eventFinal x = false) :
    (chat_with_agent_async rt m sid).2.2 = .ok "" := by
  have hdr : drainEvents evs = ("", evs.length) := by
    have hd := drainEvents_append_skip evs [] hev
    simpa [drainEvents] using hd
  cases sid with
  | none => simp [chat_with_agent_async, ensure_session, hcr, hre, hdr]
  | some id => simp [chat_with_agent_async, ensure_session, hre, hdr]

/-- Witness for C5: a stream holding only a non-final event yields the
empty response. -/
theorem C5_witness :
    noFinalRt.createSession = Except.ok "sess-1" ∧
    noFinalRt.runEvents (userContent "hi") = Except.ok [evNonFinal] ∧
    (∀ x ∈ [evNonFinal], eventFinal x = false) ∧
    (chat_with_agent_async noFinalRt "hi" none).2.2 = Except.ok "" :=
  ⟨rfl, rfl, by decide,
    C5_no_final_event_empty noFinalRt "hi" none "sess-1" [evNonFinal] rfl rfl (by decide)⟩

/-- C6 counterexample: on a streaming failure the chat history is NOT left
unchanged — starting from an empty history with an active session, the
failed turn returns a non-empty history (the user message and the error
text were appended by `respond`). -/
theorem C6_counterexample :
    ¬ ((respond failRt "hi" [] (some "s")).2.2.2 = ([] : List Msg)) := by
  decide

/-- C6 (amended): on a runtime failure during event streaming, while a
session is active, the session identifier is unchanged and no creation
call is performed, so every next turn reuses the same session with no new
creation call; the chat history is not cleared or edited — it gains
exactly the user message and an `"Error: "`-prefixed assistant message
appended at its end. -/
theorem C6_streaming_failure_frame (rt : Runtime) (m : String) (h : List Msg)
    (id e : String)
    (hre : rt.runEvents (userContent m) = .error e) :
    (respond rt m h (some id)).1 = some id ∧
    (respond rt m h (some id)).2.1 = 0 ∧
    (respond rt m h (some id)).2.2.2 =
      h ++ [{ role := "user", content := m },
            { role := "assistant", content := "Error: " ++ e }] ∧
    ∀ rt2 m2, (chat_with_agent_async rt2 m2 (respond rt m h (some id)).1).2.1 = 0 := by
  have h1 : (respond rt m h (some id)).1 = some id := by
    simp [respond, chat_with_agent, chat_with_agent_async, ensure_session, hre]
  refine ⟨h1, ?_, ?_, ?_⟩
  · simp [respond, chat_with_agent, chat_with_agent_async, ensure_session, hre]
  · simp [respond, chat_with_agent, chat_with_agent_async, ensure_session, hre]
  · intro rt2 m2
    rw [h1]
    cases hre2 : rt2.runEvents (userContent m2) with
    | error e2 => simp [chat_with_agent_async, ensure_session, hre2]
    | ok evs => simp [chat_with_agent_async, ensure_session, hre2]

/-- Witness for the amended C6: with the failing runtime, the session stays
`"s"`, no creation call happens, and the history gains the user message
and the error message. -/
theorem C6_witness :
    failRt.runEvents (userContent "hi") = Except.error "boom" ∧
    (respond failRt "hi" [] (some "s")).1 = some "s" ∧
    (respond failRt "hi" [] (some "s")).2.2.2 =
      [{ role := "user", content := "hi" },
       { role := "assistant", content := "Error: " ++ "boom" }] :=
  ⟨rfl, (C6_streaming_failure_frame failRt "hi" [] "s" "boom" rfl).1,
    (C6_streaming_failure_frame failRt "hi" [] "s" "boom" rfl).2.2.1⟩

/-- C7: every non-raising output of the Turn Executor is a plain text
string — either the empty string or the extracted text of a qualifying
final event of the stream the runtime yielded. -/
theorem C7_plain_text_output (rt : Runtime) (m : String) (sid : Option String)
    (r : String)
    (hok : (chat_with_agent_async rt m sid).2.2 = .ok r) :
    r = "" ∨ ∃ evs, rt.runEvents (userContent m) = .ok evs ∧
      ∃ e ∈ evs, eventFinal e = true ∧ r = eventText e := by
  obtain ⟨evs, hre, hr⟩ := chat_async_ok_shape rt m sid r hok
  rcases drainEvents_fst_cases evs with h0 | ⟨e, he, hf, ht⟩
  · exact Or.inl (by rw [hr, h0])
  · exact Or.inr ⟨evs, hre, e, he, hf, by rw [hr, ht]⟩

/-- Witness for C7: the well-behaved runtime returns `"14:30"`, which is
the text of its final event. -/
theorem C7_witness :
    (chat_with_agent_async okRt "hi" none).2.2 = Except.ok "14:30" ∧
    ("14:30" = "" ∨ ∃ evs, okRt.runEvents (userContent "hi") = Except.ok evs ∧
      ∃ e ∈ evs, eventFinal e = true ∧ "14:30" = eventText e) :=
  ⟨rfl, C7_plain_text_output okRt "hi" none "14:30" rfl⟩

/-- C8: the UI submit handler returns the pair of the cleared input box and
the prior history with exactly the user message (role `user`) and the
agent response (role `assistant`) appended in that order; the prior
history is preserved as a prefix, unmodified. -/
theorem C8_submit_appends (rt : Runtime) (m : String) (h : List Msg)
    (sid : Option String) :
    (respond rt m h sid).2.2 =
      ("", h ++ [{ role := "user", content := m },
                 { role := "assistant", content := (chat_with_agent rt m h sid).2.2 }]) ∧
    ((respond rt m h sid).2.2.2).take h.length = h := by
  refine ⟨rfl, ?_⟩
  show (h ++ _).take h.length = h
  simp

/-- C9: the Turn Executor's result does not depend on the chat history
argument — same session state and same runtime yield identical results for
any two histories. -/
theorem C9_history_noninterference (rt : Runtime) (m : String) (h1 h2 : List Msg)
    (sid : Option String) :
    chat_with_agent rt m h1 sid = chat_with_agent rt m h2 sid := rfl

/-- C10: if session creation raises, the global session identifier is left
unset, exactly one (failed) creation call was performed, the error
propagates out of the asynchronous turn, and any next turn performs a
fresh session-creation call. -/
theorem C10_create_failure_no_mutation (rt : Runtime) (m : String) (e : String)
    (hcr : rt.createSession = .error e) :
    (chat_with_agent_async rt m none).1 = none ∧
    (chat_with_agent_async rt m none).2.1 = 1 ∧
    (chat_with_agent_async rt m none).2.2 = .error e ∧
    ∀ rt2 m2, (chat_with_agent_async rt2 m2 (chat_with_agent_async rt m none).1).2.1 = 1 := by
  have hmain : chat_with_agent_async rt m none = (none, 1, .error e) := by
    simp [chat_with_agent_async, ensure_session, hcr]
  refine ⟨by rw [hmain], by rw [hmain], by rw [hmain], ?_⟩
  intro rt2 m2
  rw [hmain]
  cases hcr2 : rt2.createSession with
  | error e2 => simp [chat_with_agent_async, ensure_session, hcr2]
  | ok nid =>
    cases hre2 : rt2.runEvents (userContent m2) with
    | error e2 => simp [chat_with_agent_async, ensure_session, hcr2, hre2]
    | ok evs => simp [chat_with_agent_async, ensure_session, hcr2, hre2]

/-- Witness for C10: the runtime whose creation raises `"no auth"` leaves
the session unset after one attempted creation call. -/
theorem C10_witness :
    createFailRt.createSession = Except.error "no auth" ∧
    (chat_with_agent_async createFailRt "hi" none).1 = none ∧
    (chat_with_agent_async createFailRt "hi" none).2.1 = 1 :=
  ⟨rfl, (C10_create_failure_no_mutation createFailRt "hi" "no auth" rfl).1,
    (C10_create_failure_no_mutation createFailRt "hi" "no auth" rfl).2.1⟩

end TimeAgent
